import Mathlib

set_option autoImplicit false

namespace Notable

/-! # Request values

`req.body` is the JSON document parsed by `bodyParser.json()`.  The handlers only
destructure scalar fields from it, so a body is an ordered list of properties whose
values are JSON scalars.  A property that is missing reads as `undefined`, which is
`none` here. -/

/-- JSON scalars that may sit in a request body or in a provider record. -/
inductive JsVal where
  | null
  | bool (b : Bool)
  | num (n : Int)
  | str (s : String)
  deriving DecidableEq

/-- JavaScript object: its own enumerable properties in insertion order. -/
abbrev JsObject := List (String × JsVal)

/-- Property read `obj.key` (`none` is `undefined`). -/
def JsObject.get (obj : JsObject) (key : String) : Option JsVal :=
  obj.lookup key

/-! # express-validator chains

The routes declare `body(field).isInt()`, `.isString()`, `.isBoolean()`, each possibly
followed by `.optional()`.  Standard validators work on the string form of the value;
`isString` is the `typeof value === 'string'` check. -/

/-- String form of a scalar as the validators see it.  A number is printed in decimal
when its magnitude is below `10 ^ 21`; from there on JavaScript prints it in exponent
notation, a case the checks below decide on the number itself. -/
def JsVal.asText : JsVal → String
  | .null => ""
  | .bool true => "true"
  | .bool false => "false"
  | .num n => if n < 0 then "-" ++ Nat.repr n.natAbs else Nat.repr n.natAbs
  | .str s => s

/-- Decimal digits only, at least one. -/
def allDigits (cs : List Char) : Bool :=
  !cs.isEmpty && cs.all Char.isDigit

/-- The integer pattern of `isInt`: optional sign, then digits. -/
def isIntText (s : String) : Bool :=
  match s.data with
  | '-' :: cs => allDigits cs
  | '+' :: cs => allDigits cs
  | cs => allDigits cs

/-- The check `isInt()`: the string form must match the integer pattern.  The decimal
form of a number matches it, the exponent form (magnitude `10 ^ 21` and up) does not. -/
def isInt (v : JsVal) : Bool :=
  match v with
  | .num n => decide (n.natAbs < 10 ^ 21)
  | v => isIntText v.asText

/-- The check `isString()`: `typeof value === 'string'`. -/
def isString (v : JsVal) : Bool :=
  match v with
  | .str _ => true
  | _ => false

/-- The check `isBoolean()`: the string form is one of four words (the exponent form of
a large number is none of them, as its decimal form is none). -/
def isBoolean (v : JsVal) : Bool :=
  v.asText ∈ ["true", "false", "1", "0"]

/-- One link of a validation chain: `body(field).<check>()`, with or without `.optional()`. -/
structure Chain where
  field : String
  check : JsVal → Bool
  optional : Bool

/-- Fields reported by a chain on a body: a missing field fails unless the chain is
optional, a present one fails when the check rejects it. -/
def Chain.run (c : Chain) (body : JsObject) : List String :=
  match body.get c.field with
  | none => if c.optional then [] else [c.field]
  | some v => if c.check v then [] else [c.field]

/-- Result of `validationResult(req).array()` after the chains ran: the failing fields. -/
def validationResult (chains : List Chain) (body : JsObject) : List String :=
  chains.flatMap (fun c => c.run body)

/-! # The notes table -/

/-- Row of the `notes` table.  `tags` and `attachments` hold the JSON text of an array of
strings (`JSON.stringify` on write, `JSON.parse` on read); the embedding keeps the array. -/
structure Note where
  id : Int
  user_id : Int
  title : String
  content : String
  tags : List String
  attachments : List String
  favorite : Bool
  pinned : Bool
  inTrash : Bool
  createdAt : Nat
  modifiedAt : Nat
  deriving DecidableEq

/-- Columns that `updateNoteField` is called with. -/
inductive Field where
  | title
  | content
  | favorite
  | pinned
  | inTrash
  deriving DecidableEq

/-- Statements sent through `pool.query`, in the order they were issued. -/
inductive Stmt where
  | selectTags (id : JsVal)
  | selectAttachments (id : JsVal)
  | selectNote (id : Int)
  | selectAllTags (userId : Int)
  | updateTags (tags : List String) (id : JsVal)
  | updateAttachments (attachments : List String) (id : JsVal)
  | updateField (field : Field) (value : JsVal) (id : Int)
  | deleteNote (id : Int)
  deriving DecidableEq

/-- Whether a statement writes to the table. -/
def Stmt.isWrite : Stmt → Bool
  | .updateTags _ _ => true
  | .updateAttachments _ _ => true
  | .updateField _ _ _ => true
  | .deleteNote _ => true
  | _ => false

/-- The connection pool seen from the handlers: the rows of `notes` and the statements
issued so far. -/
structure Pool where
  notes : List Note
  log : List Stmt
  deriving DecidableEq

/-- Primary key of `notes`: no two rows share an id. -/
def Pool.PrimaryKey (db : Pool) : Prop :=
  (db.notes.map Note.id).Nodup

instance (db : Pool) : Decidable db.PrimaryKey :=
  inferInstanceAs (Decidable (db.notes.map Note.id).Nodup)

/-- Record a statement in the log. -/
def Pool.issue (db : Pool) (s : Stmt) : Pool :=
  { db with log := db.log ++ [s] }

/-! # Responses -/

inductive Body where
  | message (m : String)
  | error (e : String)
  | errors (fields : List String)
  | serverError (e : String)
  | note (row : Option Note)
  | tagList (tags : List (Option String))
  | registered (m : String) (user : JsObject)
  deriving DecidableEq

structure Response where
  status : Nat
  body : Body
  deriving DecidableEq

/-- Message of the `TypeError` raised by reading a property of `undefined`. -/
def typeErrorMessage (prop : String) : String :=
  "Cannot read properties of undefined (reading \x27" ++ prop ++ "\x27)"

/-- Value of a run of decimal digits. -/
def digitsValue (cs : List Char) : Nat :=
  cs.foldl (fun acc c => 10 * acc + (c.toNat - 48)) 0

/-- Integer that a parameter accepted by `isInt` denotes in `WHERE id = ?` (the string
form is converted by the server); `none` compares equal to no row. -/
def sqlInt : JsVal → Option Int
  | .num n => some n
  | .str s =>
    match s.data with
    | '-' :: cs => if allDigits cs then some (- (digitsValue cs : Int)) else none
    | '+' :: cs => if allDigits cs then some (digitsValue cs : Int) else none
    | cs => if allDigits cs then some (digitsValue cs : Int) else none
  | _ => none

/-- Row test of `WHERE id = ?` for a parameter taken from the body. -/
def whereId (param : JsVal) (n : Note) : Bool :=
  sqlInt param = some n.id

/-! # Statements on `notes` -/

/-- Query `SELECT tags FROM notes WHERE id = ?`: the `tags` cell of every matching row. -/
def Pool.selectTags (db : Pool) (id : JsVal) : List (List String) × Pool :=
  ((db.notes.filter (whereId id)).map Note.tags, db.issue (.selectTags id))

/-- Query `SELECT attachments FROM notes WHERE id = ?`. -/
def Pool.selectAttachments (db : Pool) (id : JsVal) : List (List String) × Pool :=
  ((db.notes.filter (whereId id)).map Note.attachments, db.issue (.selectAttachments id))

/-- Query `UPDATE notes SET tags = ? WHERE id = ?`: the `tags` column of every matching row
is assigned; a column the statement does not name, `modifiedAt` among them, keeps its
value (the routes write both time stamps themselves wherever they mean to, with `NOW()`). -/
def Pool.updateTags (db : Pool) (tags : List String) (id : JsVal) : Pool :=
  { notes := db.notes.map (fun n => if whereId id n then { n with tags := tags } else n)
    log := db.log ++ [.updateTags tags id] }

/-- Query `UPDATE notes SET attachments = ? WHERE id = ?`. -/
def Pool.updateAttachments (db : Pool) (attachments : List String) (id : JsVal) : Pool :=
  { notes := db.notes.map
      (fun n => if whereId id n then { n with attachments := attachments } else n)
    log := db.log ++ [.updateAttachments attachments id] }

/-- Query `SELECT * FROM notes WHERE id = ?` with the route parameter. -/
def Pool.selectNote (db : Pool) (id : Int) : List Note × Pool :=
  (db.notes.filter (fun n => n.id = id), db.issue (.selectNote id))

/-- Query `DELETE FROM notes WHERE id = ?`. -/
def Pool.deleteNote (db : Pool) (id : Int) : Pool :=
  { notes := db.notes.filter (fun n => n.id ≠ id)
    log := db.log ++ [.deleteNote id] }

/-! # services/NoteService.js -/

/-- How the database server stores a bound parameter whose JavaScript type is not the
type of the column (an error: the statement is rejected with that message).  A string goes
into a text column and a boolean into a flag column as they are. -/
structure Engine where
  textOf : JsVal → Except String String
  flagOf : JsVal → Except String Bool

def Engine.text (E : Engine) : JsVal → Except String String
  | .str s => .ok s
  | v => E.textOf v

def Engine.flag (E : Engine) : JsVal → Except String Bool
  | .bool b => .ok b
  | v => E.flagOf v

/-- The column assignment `SET field = value` on a row. -/
def assign (E : Engine) (field : Field) (value : JsVal) : Except String (Note → Note) :=
  match field with
  | .title => (E.text value).map (fun s n => { n with title := s })
  | .content => (E.text value).map (fun s n => { n with content := s })
  | .favorite => (E.flag value).map (fun b n => { n with favorite := b })
  | .pinned => (E.flag value).map (fun b n => { n with pinned := b })
  | .inTrash => (E.flag value).map (fun b n => { n with inTrash := b })

/-- `updateNoteField(id, field, value)`: issues
`UPDATE notes SET field = ?, modifiedAt = NOW() WHERE id = ?` at server time `now`.
The first component is the error thrown, if any. -/
def updateNoteField (E : Engine) (id : Int) (field : Field) (value : JsVal) (now : Nat)
    (db : Pool) : Option String × Pool :=
  let db1 := db.issue (.updateField field value id)
  match assign E field value with
  | .error e => (some e, db1)
  | .ok set =>
    let rows := db1.notes.map
      (fun n => if n.id = id then { set n with modifiedAt := now } else n)
    (none, { db1 with notes := rows })

/-! # routes/notes.js -/

/-- Handler of `POST /create-tag`.  `rows[0].tags` throws when the `SELECT` found no row.
The cell of a row is the JSON text of an array, which is never the empty string, so
`JSON.parse(rows[0].tags || '[]')` is the stored array; `push` appends to it. -/
def createTag (body : JsObject) (db : Pool) : Response × Pool :=
  let errors := validationResult [⟨"noteId", isInt, false⟩, ⟨"tag", isString, false⟩] body
  if !errors.isEmpty then (⟨400, .errors errors⟩, db) else
  match body.get "noteId", body.get "tag" with
  | some noteId, some (.str tag) =>
    let (rows, db1) := db.selectTags noteId
    match rows with
    | [] => (⟨500, .error (typeErrorMessage "tags")⟩, db1)
    | existingTags :: _ =>
      (⟨201, .message "Tag added successfully"⟩, db1.updateTags (existingTags ++ [tag]) noteId)
  | _, _ => (⟨400, .errors errors⟩, db) -- the chains above reject every such body

/-- Handler of `DELETE /delete-tag`: as create-tag, with `filter(t => t !== tag)`. -/
def deleteTag (body : JsObject) (db : Pool) : Response × Pool :=
  let errors := validationResult [⟨"noteId", isInt, false⟩, ⟨"tag", isString, false⟩] body
  if !errors.isEmpty then (⟨400, .errors errors⟩, db) else
  match body.get "noteId", body.get "tag" with
  | some noteId, some (.str tag) =>
    let (rows, db1) := db.selectTags noteId
    match rows with
    | [] => (⟨500, .error (typeErrorMessage "tags")⟩, db1)
    | existingTags :: _ =>
      (⟨200, .message "Tag deleted successfully"⟩,
        db1.updateTags (existingTags.filter (fun t => t ≠ tag)) noteId)
  | _, _ => (⟨400, .errors errors⟩, db) -- the chains above reject every such body

/-- Handler of `POST /create-attachment`. -/
def createAttachment (body : JsObject) (db : Pool) : Response × Pool :=
  let errors :=
    validationResult [⟨"noteId", isInt, false⟩, ⟨"attachment", isString, false⟩] body
  if !errors.isEmpty then (⟨400, .errors errors⟩, db) else
  match body.get "noteId", body.get "attachment" with
  | some noteId, some (.str attachment) =>
    let (rows, db1) := db.selectAttachments noteId
    match rows with
    | [] => (⟨500, .error (typeErrorMessage "attachments")⟩, db1)
    | existingAttachments :: _ =>
      (⟨201, .message "Attachment added successfully"⟩,
        db1.updateAttachments (existingAttachments ++ [attachment]) noteId)
  | _, _ => (⟨400, .errors errors⟩, db) -- the chains above reject every such body

/-- Handler of `DELETE /delete-attachment`. -/
def deleteAttachment (body : JsObject) (db : Pool) : Response × Pool :=
  let errors :=
    validationResult [⟨"noteId", isInt, false⟩, ⟨"attachment", isString, false⟩] body
  if !errors.isEmpty then (⟨400, .errors errors⟩, db) else
  match body.get "noteId", body.get "attachment" with
  | some noteId, some (.str attachment) =>
    let (rows, db1) := db.selectAttachments noteId
    match rows with
    | [] => (⟨500, .error (typeErrorMessage "attachments")⟩, db1)
    | existingAttachments :: _ =>
      (⟨200, .message "Attachment deleted successfully"⟩,
        db1.updateAttachments (existingAttachments.filter (fun a => a ≠ attachment)) noteId)
  | _, _ => (⟨400, .errors errors⟩, db) -- the chains above reject every such body

/-- Handler of `PUT /update-note/:id`; `t1`, `t2` are the server times of the two updates. -/
def updateNote (E : Engine) (id : Int) (body : JsObject) (t1 t2 : Nat) (db : Pool) :
    Response × Pool :=
  let errors := validationResult [⟨"title", isString, false⟩, ⟨"content", isString, false⟩] body
  if !errors.isEmpty then (⟨400, .errors errors⟩, db) else
  match body.get "title", body.get "content" with
  | some title, some content =>
    match updateNoteField E id .title title t1 db with
    | (some e, db1) => (⟨500, .serverError e⟩, db1)
    | (none, db1) =>
      match updateNoteField E id .content content t2 db1 with
      | (some e, db2) => (⟨500, .serverError e⟩, db2)
      | (none, db2) =>
        let (updatedNote, db3) := db2.selectNote id
        (⟨200, .note updatedNote.head?⟩, db3)
  | _, _ => (⟨400, .errors errors⟩, db) -- the chains above reject every such body

/-- One `if (flag !== undefined) await NoteService.updateNoteField(id, field, flag)`. -/
def updateIfDefined (E : Engine) (id : Int) (field : Field) (flag : Option JsVal) (now : Nat)
    (db : Pool) : Option String × Pool :=
  match flag with
  | none => (none, db)
  | some value => updateNoteField E id field value now db

/-- Handler of `PUT /update-status/:id`; `t1`, `t2`, `t3` are the server times at which
the three conditional updates run.  The chains are declared on the route, and the handler
never reads `validationResult`. -/
def updateStatus (E : Engine) (id : Int) (body : JsObject) (t1 t2 t3 : Nat) (db : Pool) :
    Response × Pool :=
  match updateIfDefined E id .favorite (body.get "favorite") t1 db with
  | (some e, db1) => (⟨500, .serverError e⟩, db1)
  | (none, db1) =>
    match updateIfDefined E id .pinned (body.get "pinned") t2 db1 with
    | (some e, db2) => (⟨500, .serverError e⟩, db2)
    | (none, db2) =>
      match updateIfDefined E id .inTrash (body.get "inTrash") t3 db2 with
      | (some e, db3) => (⟨500, .serverError e⟩, db3)
      | (none, db3) =>
        let (updatedNote, db4) := db3.selectNote id
        (⟨200, .note updatedNote.head?⟩, db4)

/-- The chains declared on `PUT /update-status/:id`. -/
def updateStatusChains : List Chain :=
  [⟨"favorite", isBoolean, true⟩, ⟨"pinned", isBoolean, true⟩, ⟨"inTrash", isBoolean, true⟩]

/-- Handler of `DELETE /delete-note/:id`. -/
def deleteNote (id : Int) (db : Pool) : Response × Pool :=
  (⟨200, .message "Note deleted permanently"⟩, db.deleteNote id)

/-! ## `GET /user/:id/all-tags`

The query is
`SELECT DISTINCT JSON_UNQUOTE(JSON_EXTRACT(tags, "$[*]")) AS tag FROM notes WHERE user_id = ?`.
`JSON_EXTRACT` with the wildcard path yields, per row, the JSON array of all matches, or
`NULL` when nothing matches; `JSON_UNQUOTE` of a value that is not a JSON string is its
JSON text. -/

def hexDigit (k : Nat) : Char :=
  if k < 10 then Char.ofNat (48 + k) else Char.ofNat (87 + k)

/-- Escape of one character inside a JSON string literal as the server prints it:
the double quote (34) and the backslash (92) get a backslash, the control characters
their short or `u00XX` form. -/
def jsonEscape (c : Char) : List Char :=
  let bs := Char.ofNat 92
  if c.toNat = 34 then [bs, Char.ofNat 34]
  else if c.toNat = 92 then [bs, bs]
  else if c.toNat = 10 then [bs, 'n']
  else if c.toNat = 9 then [bs, 't']
  else if c.toNat = 13 then [bs, 'r']
  else if c.toNat = 8 then [bs, 'b']
  else if c.toNat = 12 then [bs, 'f']
  else if c.toNat < 32 then
    [bs, 'u', '0', '0', hexDigit (c.toNat / 16), hexDigit (c.toNat % 16)]
  else [c]

/-- JSON text of a string: quoted and escaped. -/
def jsonQuote (s : String) : String :=
  String.mk ([Char.ofNat 34] ++ s.data.flatMap jsonEscape ++ [Char.ofNat 34])

/-- JSON text of an array of strings as the server prints it. -/
def jsonArrayText (xs : List String) : String :=
  "[" ++ ", ".intercalate (xs.map jsonQuote) ++ "]"

/-- The cell `JSON_UNQUOTE(JSON_EXTRACT(tags, "$[*]"))` of a row (`none` is `NULL`). -/
def allTagsCell (tags : List String) : Option String :=
  if tags.isEmpty then none else some (jsonArrayText tags)

/-- Handler of `GET /user/:id/all-tags`: one cell per note of the user, duplicates of a
cell dropped by `DISTINCT`, sent as `tags.map(row => row.tag)`. -/
def allTags (id : Int) (db : Pool) : Response × Pool :=
  let tags := ((db.notes.filter (fun n => n.user_id = id)).map
    (fun n => allTagsCell n.tags)).dedup
  (⟨200, .tagList tags⟩, db.issue (.selectAllTags id))

/-! # authMiddleware.js -/

/-- JavaScript `s.split(' ')` on the characters of `s`. -/
def splitSpace : List Char → List (List Char)
  | [] => [[]]
  | c :: cs =>
    match splitSpace cs with
    | [] => [[c]]
    | seg :: segs => if c = ' ' then [] :: seg :: segs else (c :: seg) :: segs

/-- The expression `authHeader?.split(' ')[1]` (`none` is `undefined`). -/
def bearerToken (authHeader : Option String) : Option String :=
  match authHeader with
  | none => none
  | some h => ((splitSpace h.data).get? 1).map String.mk

/-- What the routes read of a request: the Authorization header, the route parameter
`:id` as the integer it denotes, the parsed body, and `req.user`, which the middleware
sets. -/
structure Request where
  authorization : Option String
  id : Int
  body : JsObject
  user : Option JsObject
  deriving DecidableEq

/-- Either a response was sent, or `next()` was called with the request. -/
inductive Passed where
  | sent (res : Response)
  | next (req : Request)
  deriving DecidableEq

/-- The middleware; `verify` is `jwt.verify(·, JWT_SECRET)`, an error standing for a throw,
a value for the decoded payload. -/
def authMiddleware (verify : String → Except String JsObject) (req : Request) : Passed :=
  match bearerToken req.authorization with
  | none => .sent ⟨401, .message "No token, authorization denied"⟩
  | some token =>
    if token = "" then .sent ⟨401, .message "No token, authorization denied"⟩
    else
      match verify token with
      | .ok decodedToken =>
        .next { req with user := some (match decodedToken.get "userId" with
          | some v => [("id", v)]
          | none => []) }
      | .error _ => .sent ⟨401, .message "Token is not valid"⟩

/-- A route declared as `router.METHOD(path, authMiddleware, ..., handler)`: the handler
is what `next()` leads to. -/
def guarded (verify : String → Except String JsObject)
    (handler : Request → Pool → Response × Pool) (req : Request) (db : Pool) :
    Response × Pool :=
  match authMiddleware verify req with
  | .sent res => (res, db)
  | .next req1 => handler req1 db

/-- The row with the given id, as `SELECT ... WHERE id = ?` finds it first. -/
def Pool.find (db : Pool) (id : Int) : Option Note :=
  db.notes.find? (fun m => m.id = id)

/-- The route `POST /notes/create-tag`. -/
def postCreateTag (verify : String → Except String JsObject) : Request → Pool → Response × Pool :=
  guarded verify (fun req db => createTag req.body db)

/-! # routes/users.js -/

/-- Assignment `obj[key] = value`: an existing property keeps its place. -/
def JsObject.set (obj : JsObject) (key : String) (value : JsVal) : JsObject :=
  if obj.any (fun kv => kv.1 = key) then
    obj.map (fun kv => if kv.1 = key then (key, value) else kv)
  else obj ++ [(key, value)]

/-- Object spread `...source` inside a literal that so far holds `target`. -/
def spread (target source : JsObject) : JsObject :=
  source.foldl (fun obj kv => obj.set kv.1 kv.2) target

/-- Handler of `POST /users/register`; `userRecord` is what `admin.auth().createUser`
settles to and `insertResult` what the `INSERT INTO users` settles to (its `insertId`). -/
def register (userRecord : Except String JsObject) (insertResult : Except String Int) :
    Response :=
  match userRecord with
  | .error e => ⟨400, .error e⟩
  | .ok record =>
    match insertResult with
    | .error e => ⟨400, .error e⟩
    | .ok userId =>
      ⟨200, .registered "User registered successfully" (spread [("uid", .num userId)] record)⟩

/-- Server time left in `modifiedAt` by update-status: that of the last update that ran. -/
def statusStamp (f p x : Option Bool) (t1 t2 t3 old : Nat) : Nat :=
  if x.isSome then t3 else if p.isSome then t2 else if f.isSome then t1 else old

/-- What update-status leaves alone between a row `m` and the same row `m1` afterwards:
every column other than the three flags and `modifiedAt`, each flag the body does not
hold, and the whole row when its id is not the route id. -/
def statusFrame (id : Int) (body : JsObject) (m m1 : Note) : Prop :=
  m1.id = m.id ∧ m1.user_id = m.user_id ∧ m1.title = m.title ∧ m1.content = m.content ∧
  m1.tags = m.tags ∧ m1.attachments = m.attachments ∧ m1.createdAt = m.createdAt ∧
  (body.get "favorite" = none → m1.favorite = m.favorite) ∧
  (body.get "pinned" = none → m1.pinned = m.pinned) ∧
  (body.get "inTrash" = none → m1.inTrash = m.inTrash) ∧
  (m.id ≠ id → m1 = m)

/-! # Sample data -/

/-- The row that create-note stores for user 1 with title T and content C at server
time 10, when the generated id is 1. -/
def sampleNote : Note :=
  ⟨1, 1, "T", "C", [], [], false, false, false, 10, 10⟩

def samplePool : Pool := ⟨[sampleNote], []⟩

/-- A row of user 1 that carries a tag twice and an attachment twice. -/
def taggedNote : Note :=
  ⟨2, 1, "T", "C", ["a", "b", "a"], ["x.png", "y.png", "x.png"], true, false, false, 10, 12⟩

def taggedPool : Pool := ⟨[sampleNote, taggedNote], []⟩

/-- A server in strict mode: a parameter of the wrong type is rejected. -/
def strictMode : Engine :=
  ⟨fun _ => .error "Incorrect string value", fun _ => .error "Incorrect integer value"⟩

/-- A verifier that knows one token. -/
def sampleVerify (token : String) : Except String JsObject :=
  if token = "good" then .ok [("userId", .num 1), ("email", .str "a@x.com")]
  else .error "invalid token"

def sampleRequest (authorization : Option String) : Request :=
  ⟨authorization, 1, [("noteId", .num 1), ("tag", .str "work")], none⟩

/-! # Lemmas on the table -/

theorem find_of_mem (db : Pool) (n : Note) (hpk : db.PrimaryKey) (hn : n ∈ db.notes) :
    db.find n.id = some n := by
  obtain ⟨rows, log⟩ := db
  simp only [Pool.PrimaryKey, Pool.find] at *
  induction rows with
  | nil => simp at hn
  | cons m ms ih =>
    simp only [List.map_cons, List.nodup_cons, List.mem_map, not_exists, not_and] at hpk
    rcases List.mem_cons.mp hn with h | h
    · subst h; simp
    · have hne : m.id ≠ n.id := fun e => hpk.1 n h e.symm
      simp [List.find?_cons, hne, ih hpk.2 h]

theorem filter_whereId_of_mem (rows : List Note) (n : Note) (v : JsVal)
    (hpk : (rows.map Note.id).Nodup) (hn : n ∈ rows) (hid : sqlInt v = some n.id) :
    rows.filter (whereId v) = [n] := by
  induction rows with
  | nil => simp at hn
  | cons m ms ih =>
    simp only [List.map_cons, List.nodup_cons, List.mem_map, not_exists, not_and] at hpk
    rcases List.mem_cons.mp hn with h | h
    · subst h
      have hrest : ms.filter (whereId v) = [] := by
        rw [List.filter_eq_nil_iff]
        intro m hm hw
        simp only [whereId, hid, decide_eq_true_eq, Option.some.injEq] at hw
        exact hpk.1 m hm hw.symm
      simp [List.filter_cons, whereId, hid, hrest]
    · have hne : n.id ≠ m.id := fun e => hpk.1 n h e
      simp [List.filter_cons, whereId, hid, hne, ih hpk.2 h]

theorem filter_whereId_of_absent (rows : List Note) (v : JsVal)
    (hmiss : ∀ m ∈ rows, sqlInt v ≠ some m.id) : rows.filter (whereId v) = [] := by
  rw [List.filter_eq_nil_iff]
  intro m hm hw
  simp only [whereId, decide_eq_true_eq] at hw
  exact hmiss m hm hw

theorem validation_ok (key : String) (hkey : key ≠ "noteId") (v : JsVal) (t : String)
    (hv : isInt v = true) :
    validationResult [⟨"noteId", isInt, false⟩, ⟨key, isString, false⟩]
      [("noteId", v), (key, .str t)] = [] := by
  have h : (key == "noteId") = false := by simpa using hkey
  simp [validationResult, Chain.run, JsObject.get, List.lookup, hv, isString, h]

theorem whereId_iff (v : JsVal) (n m : Note) (hid : sqlInt v = some n.id) :
    whereId v m = true ↔ m.id = n.id := by
  simp only [whereId, hid, decide_eq_true_eq, Option.some.injEq]
  exact eq_comm

theorem map_whereId (rows : List Note) (v : JsVal) (n : Note) (f : Note → Note)
    (hid : sqlInt v = some n.id) :
    rows.map (fun m => if whereId v m then f m else m)
      = rows.map (fun m => if m.id = n.id then f m else m) := by
  apply List.map_congr_left
  intro m _
  by_cases h : m.id = n.id
  · simp [h, (whereId_iff v n m hid).mpr h]
  · have : whereId v m = false := by
      cases hw : whereId v m
      · rfl
      · exact absurd ((whereId_iff v n m hid).mp hw) h
    simp [h, this]

/-- An update that keeps ids keeps the primary key and replaces the one row of that id. -/
theorem find_after_update (rows : List Note) (log : List Stmt) (n : Note) (f : Note → Note)
    (hf : ∀ m, (f m).id = m.id) (hpk : (rows.map Note.id).Nodup) (hn : n ∈ rows) :
    Pool.PrimaryKey ⟨rows.map (fun m => if m.id = n.id then f m else m), log⟩ ∧
    f n ∈ rows.map (fun m => if m.id = n.id then f m else m) ∧
    Pool.find ⟨rows.map (fun m => if m.id = n.id then f m else m), log⟩ n.id = some (f n) := by
  have hids : (rows.map (fun m => if m.id = n.id then f m else m)).map Note.id
      = rows.map Note.id := by
    rw [List.map_map]
    apply List.map_congr_left
    intro m _
    by_cases h : m.id = n.id <;> simp [h, hf]
  have hpk2 : Pool.PrimaryKey ⟨rows.map (fun m => if m.id = n.id then f m else m), log⟩ := by
    simpa [Pool.PrimaryKey, hids] using hpk
  have hmem : f n ∈ rows.map (fun m => if m.id = n.id then f m else m) :=
    List.mem_map.mpr ⟨n, hn, by simp⟩
  refine ⟨hpk2, hmem, ?_⟩
  have := find_of_mem _ (f n) hpk2 hmem
  rwa [hf] at this

theorem createTag_eval (db : Pool) (n : Note) (v : JsVal) (t : String)
    (hpk : db.PrimaryKey) (hn : n ∈ db.notes) (hv : isInt v = true)
    (hid : sqlInt v = some n.id) :
    createTag [("noteId", v), ("tag", .str t)] db
      = (⟨201, .message "Tag added successfully"⟩,
          ⟨db.notes.map (fun m => if m.id = n.id then { m with tags := n.tags ++ [t] } else m),
            db.log ++ [.selectTags v, .updateTags (n.tags ++ [t]) v]⟩) := by
  have hval := validation_ok "tag" (by decide) v t hv
  have hrows := filter_whereId_of_mem db.notes n v hpk hn hid
  simp [createTag, hval, JsObject.get, List.lookup, Pool.selectTags, Pool.updateTags,
    Pool.issue, hrows, map_whereId _ v n _ hid]

theorem deleteTag_eval (db : Pool) (n : Note) (v : JsVal) (t : String)
    (hpk : db.PrimaryKey) (hn : n ∈ db.notes) (hv : isInt v = true)
    (hid : sqlInt v = some n.id) :
    deleteTag [("noteId", v), ("tag", .str t)] db
      = (⟨200, .message "Tag deleted successfully"⟩,
          ⟨db.notes.map (fun m => if m.id = n.id
              then { m with tags := n.tags.filter (fun x => x ≠ t) } else m),
            db.log ++ [.selectTags v, .updateTags (n.tags.filter (fun x => x ≠ t)) v]⟩) := by
  have hval := validation_ok "tag" (by decide) v t hv
  have hrows := filter_whereId_of_mem db.notes n v hpk hn hid
  simp [deleteTag, hval, JsObject.get, List.lookup, Pool.selectTags, Pool.updateTags,
    Pool.issue, hrows, map_whereId _ v n _ hid]

theorem createAttachment_eval (db : Pool) (n : Note) (v : JsVal) (a : String)
    (hpk : db.PrimaryKey) (hn : n ∈ db.notes) (hv : isInt v = true)
    (hid : sqlInt v = some n.id) :
    createAttachment [("noteId", v), ("attachment", .str a)] db
      = (⟨201, .message "Attachment added successfully"⟩,
          ⟨db.notes.map (fun m => if m.id = n.id
              then { m with attachments := n.attachments ++ [a] } else m),
            db.log ++ [.selectAttachments v, .updateAttachments (n.attachments ++ [a]) v]⟩) := by
  have hval := validation_ok "attachment" (by decide) v a hv
  have hrows := filter_whereId_of_mem db.notes n v hpk hn hid
  simp [createAttachment, hval, JsObject.get, List.lookup, Pool.selectAttachments,
    Pool.updateAttachments, Pool.issue, hrows, map_whereId _ v n _ hid]

theorem deleteAttachment_eval (db : Pool) (n : Note) (v : JsVal) (a : String)
    (hpk : db.PrimaryKey) (hn : n ∈ db.notes) (hv : isInt v = true)
    (hid : sqlInt v = some n.id) :
    deleteAttachment [("noteId", v), ("attachment", .str a)] db
      = (⟨200, .message "Attachment deleted successfully"⟩,
          ⟨db.notes.map (fun m => if m.id = n.id
              then { m with attachments := n.attachments.filter (fun x => x ≠ a) } else m),
            db.log ++ [.selectAttachments v,
              .updateAttachments (n.attachments.filter (fun x => x ≠ a)) v]⟩) := by
  have hval := validation_ok "attachment" (by decide) v a hv
  have hrows := filter_whereId_of_mem db.notes n v hpk hn hid
  simp [deleteAttachment, hval, JsObject.get, List.lookup, Pool.selectAttachments,
    Pool.updateAttachments, Pool.issue, hrows, map_whereId _ v n _ hid]

/-! # Collection fields: append and remove -/

/-- Claim C2.  On a table with its primary key, for a row `n` and a request whose `noteId`
denotes `n.id`, create-tag answers 201 and rewrites the `tags` cell of `n` to the previous
list with the tag appended at the end, all other rows and columns as they were; the length
grows by one; a second identical request leaves the tag twice at the end.  The same for
create-attachment on `attachments`. -/
theorem createTag_createAttachment_append (db : Pool) (n : Note) (v : JsVal) (t : String)
    (hpk : db.PrimaryKey) (hn : n ∈ db.notes) (hv : isInt v = true)
    (hid : sqlInt v = some n.id) :
    ((createTag [("noteId", v), ("tag", .str t)] db).1
        = ⟨201, .message "Tag added successfully"⟩ ∧
      (createTag [("noteId", v), ("tag", .str t)] db).2.notes
        = db.notes.map (fun m => if m.id = n.id then { m with tags := n.tags ++ [t] } else m) ∧
      (createTag [("noteId", v), ("tag", .str t)] db).2.find n.id
        = some { n with tags := n.tags ++ [t] } ∧
      (((createTag [("noteId", v), ("tag", .str t)] db).2.find n.id).map
        (fun m => m.tags.length)) = some (n.tags.length + 1) ∧
      (createTag [("noteId", v), ("tag", .str t)]
          (createTag [("noteId", v), ("tag", .str t)] db).2).2.find n.id
        = some { n with tags := n.tags ++ [t, t] }) ∧
    ((createAttachment [("noteId", v), ("attachment", .str t)] db).1
        = ⟨201, .message "Attachment added successfully"⟩ ∧
      (createAttachment [("noteId", v), ("attachment", .str t)] db).2.notes
        = db.notes.map
          (fun m => if m.id = n.id then { m with attachments := n.attachments ++ [t] } else m) ∧
      (createAttachment [("noteId", v), ("attachment", .str t)] db).2.find n.id
        = some { n with attachments := n.attachments ++ [t] } ∧
      (((createAttachment [("noteId", v), ("attachment", .str t)] db).2.find n.id).map
        (fun m => m.attachments.length)) = some (n.attachments.length + 1) ∧
      (createAttachment [("noteId", v), ("attachment", .str t)]
          (createAttachment [("noteId", v), ("attachment", .str t)] db).2).2.find n.id
        = some { n with attachments := n.attachments ++ [t, t] }) := by
  constructor
  · have h1 := createTag_eval db n v t hpk hn hv hid
    obtain ⟨hpk2, hmem, hfind⟩ := find_after_update db.notes
      (db.log ++ [.selectTags v, .updateTags (n.tags ++ [t]) v]) n
      (fun m => { m with tags := n.tags ++ [t] }) (fun _ => rfl) hpk hn
    have h2 := createTag_eval _ { n with tags := n.tags ++ [t] } v t hpk2 hmem hv hid
    obtain ⟨_, _, hfind2⟩ := find_after_update _
      ((db.log ++ [.selectTags v, .updateTags (n.tags ++ [t]) v]) ++
        [.selectTags v, .updateTags (n.tags ++ [t] ++ [t]) v])
      { n with tags := n.tags ++ [t] }
      (fun m => { m with tags := n.tags ++ [t] ++ [t] }) (fun _ => rfl) hpk2 hmem
    rw [h1]
    refine ⟨rfl, rfl, hfind, ?_, ?_⟩
    · simp [hfind]
    · rw [h2]
      simpa using hfind2
  · have h1 := createAttachment_eval db n v t hpk hn hv hid
    obtain ⟨hpk2, hmem, hfind⟩ := find_after_update db.notes
      (db.log ++ [.selectAttachments v, .updateAttachments (n.attachments ++ [t]) v]) n
      (fun m => { m with attachments := n.attachments ++ [t] }) (fun _ => rfl) hpk hn
    have h2 := createAttachment_eval _ { n with attachments := n.attachments ++ [t] } v t
      hpk2 hmem hv hid
    obtain ⟨_, _, hfind2⟩ := find_after_update _
      ((db.log ++ [.selectAttachments v, .updateAttachments (n.attachments ++ [t]) v]) ++
        [.selectAttachments v, .updateAttachments (n.attachments ++ [t] ++ [t]) v])
      { n with attachments := n.attachments ++ [t] }
      (fun m => { m with attachments := n.attachments ++ [t] ++ [t] }) (fun _ => rfl) hpk2 hmem
    rw [h1]
    refine ⟨rfl, rfl, hfind, ?_, ?_⟩
    · simp [hfind]
    · rw [h2]
      simpa using hfind2

/-- Claim C3.  On a table with its primary key, for a row `n` and a request whose `noteId`
denotes `n.id`, delete-tag answers 200 and rewrites the `tags` cell of `n` to the previous
list without the elements equal to the tag, the others in their order, all other rows and
columns as they were; the tag no longer occurs in the stored list, and the list is the
previous one when the tag was not in it.  The same for delete-attachment. -/
theorem deleteTag_deleteAttachment_filter (db : Pool) (n : Note) (v : JsVal) (t : String)
    (hpk : db.PrimaryKey) (hn : n ∈ db.notes) (hv : isInt v = true)
    (hid : sqlInt v = some n.id) :
    ((deleteTag [("noteId", v), ("tag", .str t)] db).1
        = ⟨200, .message "Tag deleted successfully"⟩ ∧
      (deleteTag [("noteId", v), ("tag", .str t)] db).2.notes
        = db.notes.map (fun m => if m.id = n.id
            then { m with tags := n.tags.filter (fun x => x ≠ t) } else m) ∧
      (∃ m, (deleteTag [("noteId", v), ("tag", .str t)] db).2.find n.id = some m ∧
        m = { n with tags := m.tags } ∧
        m.tags = n.tags.filter (fun x => x ≠ t) ∧
        m.tags.Sublist n.tags ∧
        (∀ x, x ∈ m.tags ↔ x ∈ n.tags ∧ x ≠ t) ∧
        (∀ x, x ≠ t → m.tags.count x = n.tags.count x) ∧
        t ∉ m.tags ∧
        (t ∉ n.tags → m.tags = n.tags))) ∧
    ((deleteAttachment [("noteId", v), ("attachment", .str t)] db).1
        = ⟨200, .message "Attachment deleted successfully"⟩ ∧
      (deleteAttachment [("noteId", v), ("attachment", .str t)] db).2.notes
        = db.notes.map (fun m => if m.id = n.id
            then { m with attachments := n.attachments.filter (fun x => x ≠ t) } else m) ∧
      (∃ m, (deleteAttachment [("noteId", v), ("attachment", .str t)] db).2.find n.id = some m ∧
        m = { n with attachments := m.attachments } ∧
        m.attachments = n.attachments.filter (fun x => x ≠ t) ∧
        m.attachments.Sublist n.attachments ∧
        (∀ x, x ∈ m.attachments ↔ x ∈ n.attachments ∧ x ≠ t) ∧
        (∀ x, x ≠ t → m.attachments.count x = n.attachments.count x) ∧
        t ∉ m.attachments ∧
        (t ∉ n.attachments → m.attachments = n.attachments))) := by
  have key : ∀ xs : List String,
      (xs.filter (fun x => x ≠ t)).Sublist xs ∧
      (∀ x, x ∈ xs.filter (fun x => x ≠ t) ↔ x ∈ xs ∧ x ≠ t) ∧
      (∀ x, x ≠ t → (xs.filter (fun x => x ≠ t)).count x = xs.count x) ∧
      t ∉ xs.filter (fun x => x ≠ t) ∧
      (t ∉ xs → xs.filter (fun x => x ≠ t) = xs) := by
    intro xs
    refine ⟨List.filter_sublist _, ?_, ?_, ?_, ?_⟩
    · intro x; simp
    · intro x hx
      rw [List.count_filter]
      simpa using hx
    · simp
    · intro h
      rw [List.filter_eq_self]
      intro x hx
      have : x ≠ t := fun e => h (e ▸ hx)
      simpa using this
  constructor
  · have h1 := deleteTag_eval db n v t hpk hn hv hid
    obtain ⟨_, _, hfind⟩ := find_after_update db.notes
      (db.log ++ [.selectTags v, .updateTags (n.tags.filter (fun x => x ≠ t)) v]) n
      (fun m => { m with tags := n.tags.filter (fun x => x ≠ t) }) (fun _ => rfl) hpk hn
    rw [h1]
    exact ⟨rfl, rfl, _, hfind, rfl, rfl, key n.tags⟩
  · have h1 := deleteAttachment_eval db n v t hpk hn hv hid
    obtain ⟨_, _, hfind⟩ := find_after_update db.notes
      (db.log ++ [.selectAttachments v,
        .updateAttachments (n.attachments.filter (fun x => x ≠ t)) v]) n
      (fun m => { m with attachments := n.attachments.filter (fun x => x ≠ t) })
      (fun _ => rfl) hpk hn
    rw [h1]
    exact ⟨rfl, rfl, _, hfind, rfl, rfl, key n.attachments⟩

/-! # A note id that matches no row -/

/-- Claim C5.  When the `noteId` of a well-formed request denotes the id of no row, each
of create-tag, delete-tag, create-attachment and delete-attachment stops after its
`SELECT`: the answer is the error response of the `catch` (status 500 carrying the message
of the failed read of `rows[0]`), not the success message; the only statement issued is the
`SELECT`, no write; the rows are unchanged. -/
theorem collection_routes_absent_note (db : Pool) (v : JsVal) (t : String)
    (hv : isInt v = true) (hmiss : ∀ m ∈ db.notes, sqlInt v ≠ some m.id) :
    (createTag [("noteId", v), ("tag", .str t)] db
        = (⟨500, .error (typeErrorMessage "tags")⟩, ⟨db.notes, db.log ++ [.selectTags v]⟩) ∧
      deleteTag [("noteId", v), ("tag", .str t)] db
        = (⟨500, .error (typeErrorMessage "tags")⟩, ⟨db.notes, db.log ++ [.selectTags v]⟩) ∧
      createAttachment [("noteId", v), ("attachment", .str t)] db
        = (⟨500, .error (typeErrorMessage "attachments")⟩,
            ⟨db.notes, db.log ++ [.selectAttachments v]⟩) ∧
      deleteAttachment [("noteId", v), ("attachment", .str t)] db
        = (⟨500, .error (typeErrorMessage "attachments")⟩,
            ⟨db.notes, db.log ++ [.selectAttachments v]⟩)) ∧
    ((createTag [("noteId", v), ("tag", .str t)] db).1
        ≠ ⟨201, .message "Tag added successfully"⟩ ∧
      (deleteTag [("noteId", v), ("tag", .str t)] db).1
        ≠ ⟨200, .message "Tag deleted successfully"⟩ ∧
      (createAttachment [("noteId", v), ("attachment", .str t)] db).1
        ≠ ⟨201, .message "Attachment added successfully"⟩ ∧
      (deleteAttachment [("noteId", v), ("attachment", .str t)] db).1
        ≠ ⟨200, .message "Attachment deleted successfully"⟩) ∧
    (Stmt.selectTags v).isWrite = false ∧ (Stmt.selectAttachments v).isWrite = false := by
  have hrows := filter_whereId_of_absent db.notes v hmiss
  have hvt := validation_ok "tag" (by decide) v t hv
  have hva := validation_ok "attachment" (by decide) v t hv
  have e1 : createTag [("noteId", v), ("tag", .str t)] db
      = (⟨500, .error (typeErrorMessage "tags")⟩, ⟨db.notes, db.log ++ [.selectTags v]⟩) := by
    simp [createTag, hvt, JsObject.get, List.lookup, Pool.selectTags, Pool.issue, hrows]
  have e2 : deleteTag [("noteId", v), ("tag", .str t)] db
      = (⟨500, .error (typeErrorMessage "tags")⟩, ⟨db.notes, db.log ++ [.selectTags v]⟩) := by
    simp [deleteTag, hvt, JsObject.get, List.lookup, Pool.selectTags, Pool.issue, hrows]
  have e3 : createAttachment [("noteId", v), ("attachment", .str t)] db
      = (⟨500, .error (typeErrorMessage "attachments")⟩,
          ⟨db.notes, db.log ++ [.selectAttachments v]⟩) := by
    simp [createAttachment, hva, JsObject.get, List.lookup, Pool.selectAttachments,
      Pool.issue, hrows]
  have e4 : deleteAttachment [("noteId", v), ("attachment", .str t)] db
      = (⟨500, .error (typeErrorMessage "attachments")⟩,
          ⟨db.notes, db.log ++ [.selectAttachments v]⟩) := by
    simp [deleteAttachment, hva, JsObject.get, List.lookup, Pool.selectAttachments,
      Pool.issue, hrows]
  refine ⟨⟨e1, e2, e3, e4⟩, ⟨?_, ?_, ?_, ?_⟩, rfl, rfl⟩
  · rw [e1]; simp
  · rw [e2]; simp
  · rw [e3]; simp
  · rw [e4]; simp

/-- A `noteId` that JavaScript prints in exponent notation fails `isInt`: the route answers
400 and issues no statement. -/
theorem createTag_rejects_exponent_noteId :
    createTag [("noteId", .num (10 ^ 21)), ("tag", .str "work")] samplePool
      = (⟨400, .errors ["noteId"]⟩, samplePool) := by
  decide

/-! # Permanent delete -/

/-- Claim C10.  delete-note always answers the success message and keeps exactly the rows
whose id differs from the given one, in their order; when no row has that id the rows are
unchanged; a second delete of the same id gives the same rows and the same answer. -/
theorem deleteNote_idempotent (db : Pool) (id : Int) :
    (deleteNote id db).1 = ⟨200, .message "Note deleted permanently"⟩ ∧
    (deleteNote id db).2.notes = db.notes.filter (fun n => n.id ≠ id) ∧
    (deleteNote id db).2.notes.Sublist db.notes ∧
    (∀ n, n ∈ (deleteNote id db).2.notes ↔ n ∈ db.notes ∧ n.id ≠ id) ∧
    (∀ n, n.id ≠ id → (deleteNote id db).2.notes.count n = db.notes.count n) ∧
    ((∀ n ∈ db.notes, n.id ≠ id) → (deleteNote id db).2.notes = db.notes) ∧
    (deleteNote id (deleteNote id db).2).2.notes = (deleteNote id db).2.notes ∧
    (deleteNote id (deleteNote id db).2).1 = (deleteNote id db).1 := by
  refine ⟨rfl, rfl, ?_, ?_, ?_, ?_, ?_, rfl⟩
  · exact List.filter_sublist _
  · intro n; simp [deleteNote, Pool.deleteNote]
  · intro n hn
    simp only [deleteNote, Pool.deleteNote]
    rw [List.count_filter]
    simpa using hn
  · intro h
    simp only [deleteNote, Pool.deleteNote]
    rw [List.filter_eq_self]
    intro n hn
    simpa using h n hn
  · simp [deleteNote, Pool.deleteNote, List.filter_filter]

/-! # Status flags -/

theorem head?_filter_id (rows : List Note) (id : Int) :
    (rows.filter (fun n => n.id = id)).head? = rows.find? (fun m => m.id = id) := by
  induction rows with
  | nil => rfl
  | cons m ms ih =>
    by_cases h : m.id = id <;> simp [List.filter_cons, List.find?_cons, h, ih]

theorem updateStatus_eval (E : Engine) (id : Int) (body : JsObject) (t1 t2 t3 : Nat) (db : Pool)
    (f p x : Option Bool)
    (hf : body.get "favorite" = f.map JsVal.bool) (hp : body.get "pinned" = p.map JsVal.bool)
    (hx : body.get "inTrash" = x.map JsVal.bool) :
    (updateStatus E id body t1 t2 t3 db).2.notes
      = db.notes.map (fun m => if m.id = id then
          { m with favorite := f.getD m.favorite, pinned := p.getD m.pinned,
                   inTrash := x.getD m.inTrash,
                   modifiedAt := statusStamp f p x t1 t2 t3 m.modifiedAt } else m) ∧
    (updateStatus E id body t1 t2 t3 db).1
      = ⟨200, .note ((updateStatus E id body t1 t2 t3 db).2.find id)⟩ := by
  rcases f with _ | f <;> rcases p with _ | p <;> rcases x with _ | x <;>
    simp only [Option.map_none', Option.map_some'] at hf hp hx <;>
    simp [updateStatus, updateIfDefined, updateNoteField, assign, Engine.flag, hf, hp, hx,
      Pool.issue, Pool.selectNote, Except.map, List.map_map, statusStamp, Pool.find,
      head?_filter_id] <;>
    (intro m _; by_cases h : m.id = id <;> simp [h])

theorem forall₂_map_self (R : Note → Note → Prop) (g : Note → Note) (rows : List Note)
    (h : ∀ m, R m (g m)) : List.Forall₂ R rows (rows.map g) := by
  induction rows with
  | nil => exact List.Forall₂.nil
  | cons m ms ih => exact List.Forall₂.cons (h m) ih

theorem forall₂_self (R : Note → Note → Prop) (rows : List Note) (h : ∀ m, R m m) :
    List.Forall₂ R rows rows := by
  induction rows with
  | nil => exact List.Forall₂.nil
  | cons m ms ih => exact List.Forall₂.cons (h m) ih

theorem statusFrame_trans (id : Int) (body : JsObject) (m m1 m2 : Note)
    (h1 : statusFrame id body m m1) (h2 : statusFrame id body m1 m2) :
    statusFrame id body m m2 := by
  obtain ⟨a1, a2, a3, a4, a5, a6, a7, a8, a9, a10, a11⟩ := h1
  obtain ⟨b1, b2, b3, b4, b5, b6, b7, b8, b9, b10, b11⟩ := h2
  refine ⟨b1.trans a1, b2.trans a2, b3.trans a3, b4.trans a4, b5.trans a5, b6.trans a6,
    b7.trans a7, fun h => (b8 h).trans (a8 h), fun h => (b9 h).trans (a9 h),
    fun h => (b10 h).trans (a10 h), fun h => ?_⟩
  have e1 := a11 h
  rw [b11 (by rw [e1]; exact h), e1]

theorem forall₂_statusFrame_trans (id : Int) (body : JsObject) :
    ∀ (l l1 l2 : List Note), List.Forall₂ (statusFrame id body) l l1 →
      List.Forall₂ (statusFrame id body) l1 l2 → List.Forall₂ (statusFrame id body) l l2 := by
  intro l l1 l2 h1
  induction h1 generalizing l2 with
  | nil => intro h2; cases h2; exact List.Forall₂.nil
  | cons hm _ ih =>
    intro h2
    cases h2 with
    | cons hm2 ht2 => exact List.Forall₂.cons (statusFrame_trans id body _ _ _ hm hm2) (ih _ ht2)

/-- One conditional update of a flag keeps the frame, whether it runs, is rejected or is
skipped; `name` is the body property the flag is read from. -/
theorem updateIfDefined_frame (E : Engine) (id : Int) (body : JsObject) (field : Field)
    (name : String) (now : Nat) (db : Pool)
    (hfield : (field = .favorite ∧ name = "favorite") ∨ (field = .pinned ∧ name = "pinned") ∨
      (field = .inTrash ∧ name = "inTrash")) :
    List.Forall₂ (statusFrame id body) db.notes
      (updateIfDefined E id field (body.get name) now db).2.notes := by
  rcases hflag : body.get name with _ | v
  · exact forall₂_self _ _ (fun m => by simp [statusFrame])
  · rcases hfield with ⟨hf, hn⟩ | ⟨hf, hn⟩ | ⟨hf, hn⟩ <;> subst hf <;> subst hn <;>
      rcases hE : E.flag v with e | b <;>
      simp only [updateIfDefined, updateNoteField, assign, hE, Pool.issue, Except.map] <;>
      first
      | (apply forall₂_self
         intro m
         simp [statusFrame])
      | (apply forall₂_map_self
         intro m
         by_cases h : m.id = id <;> simp [statusFrame, hflag, h])

/-- Whatever the body and the server, update-status relates every row to itself afterwards
by `statusFrame`. -/
theorem updateStatus_frame (E : Engine) (id : Int) (body : JsObject) (t1 t2 t3 : Nat)
    (db : Pool) :
    List.Forall₂ (statusFrame id body) db.notes
      (updateStatus E id body t1 t2 t3 db).2.notes := by
  have s1 := updateIfDefined_frame E id body .favorite "favorite" t1 db (Or.inl ⟨rfl, rfl⟩)
  unfold updateStatus
  rcases h1 : updateIfDefined E id .favorite (body.get "favorite") t1 db with ⟨_ | e1, db1⟩
  · rw [h1] at s1
    dsimp only
    have s2 := updateIfDefined_frame E id body .pinned "pinned" t2 db1
      (Or.inr (Or.inl ⟨rfl, rfl⟩))
    have s12 := forall₂_statusFrame_trans id body _ _ _ s1 s2
    rcases h2 : updateIfDefined E id .pinned (body.get "pinned") t2 db1 with ⟨_ | e2, db2⟩
    · rw [h2] at s12
      dsimp only
      have s3 := updateIfDefined_frame E id body .inTrash "inTrash" t3 db2
        (Or.inr (Or.inr ⟨rfl, rfl⟩))
      have s123 := forall₂_statusFrame_trans id body _ _ _ s12 s3
      rcases h3 : updateIfDefined E id .inTrash (body.get "inTrash") t3 db2 with ⟨_ | e3, db3⟩
      · rw [h3] at s123
        exact s123
      · rw [h3] at s123
        exact s123
    · rw [h2] at s12
      exact s12
  · rw [h1] at s1
    exact s1

/-- Claim C6, as amended.  For every update-status request, whatever its body: id, owner,
title, content, tags, attachments and creation time of every row are unchanged, each flag
absent from the body keeps its value, and every row with another id is unchanged.  When
each of `favorite`, `pinned` and `inTrash` is absent or a JSON boolean, every row with the
route id gets each present flag set to the given value (and `modifiedAt` the time of the
last update that ran), and the answer is that row as stored.  In particular a body holding
only `favorite: true` sets `favorite` and the time stamp and nothing else. -/
theorem updateStatus_flags_independent (E : Engine) (id : Int) (body : JsObject)
    (t1 t2 t3 : Nat) (db : Pool) :
    List.Forall₂ (statusFrame id body) db.notes
      (updateStatus E id body t1 t2 t3 db).2.notes ∧
    (∀ f p x : Option Bool,
      body.get "favorite" = f.map JsVal.bool → body.get "pinned" = p.map JsVal.bool →
      body.get "inTrash" = x.map JsVal.bool →
      (updateStatus E id body t1 t2 t3 db).2.notes
        = db.notes.map (fun m => if m.id = id then
            { m with favorite := f.getD m.favorite, pinned := p.getD m.pinned,
                     inTrash := x.getD m.inTrash,
                     modifiedAt := statusStamp f p x t1 t2 t3 m.modifiedAt } else m) ∧
      (updateStatus E id body t1 t2 t3 db).1
        = ⟨200, .note ((updateStatus E id body t1 t2 t3 db).2.find id)⟩) ∧
    (updateStatus E id [("favorite", .bool true)] t1 t2 t3 db).2.notes
      = db.notes.map (fun m => if m.id = id then
          { m with favorite := true, modifiedAt := t1 } else m) := by
  refine ⟨updateStatus_frame E id body t1 t2 t3 db, ?_, ?_⟩
  · intro f p x hf hp hx
    exact updateStatus_eval E id body t1 t2 t3 db f p x hf hp hx
  · have h3 := (updateStatus_eval E id [("favorite", .bool true)] t1 t2 t3 db (some true)
      none none (by simp [JsObject.get, List.lookup]) (by decide) (by decide)).1
    simpa [statusStamp] using h3

/-- Claim C6 as stated, at an input where it fails.  The body holds `favorite: "yes"` and
`pinned: true`; on a server in strict mode the first update is rejected, the handler
answers 500, and `pinned`, present in the body with the value true, is still false in the
stored row. -/
theorem updateStatus_present_flag_not_set :
    JsObject.get [("favorite", .str "yes"), ("pinned", .bool true)] "pinned"
      = some (.bool true) ∧
    (updateStatus strictMode 1 [("favorite", .str "yes"), ("pinned", .bool true)] 20 21 22
      samplePool).1.status = 500 ∧
    ((updateStatus strictMode 1 [("favorite", .str "yes"), ("pinned", .bool true)] 20 21 22
      samplePool).2.find 1).map Note.pinned = some false ∧
    (updateStatus strictMode 1 [("favorite", .str "yes"), ("pinned", .bool true)] 20 21 22
      samplePool).2.notes = samplePool.notes := by
  decide

/-! # The authentication gate -/

/-- Claim C1.  On a route behind `authMiddleware`: when the Authorization header is absent,
or its split on spaces has no second segment or an empty one, or `jwt.verify` throws on
that segment, the middleware sends a 401 and does not call `next`, so whatever the handler
is, the answer is that 401 and the pool is untouched.  Whenever `next` is called, the
header carried a non-empty second segment that `jwt.verify` accepted, `req.user.id` is the
`userId` of the decoded payload, and the route is the handler run on that request. -/
theorem authMiddleware_fails_closed (verify : String → Except String JsObject)
    (handler : Request → Pool → Response × Pool) (req : Request) (db : Pool) :
    ((req.authorization = none ∨
        (∃ h, req.authorization = some h ∧
          ((splitSpace h.data).get? 1 = none ∨ (splitSpace h.data).get? 1 = some [])) ∨
        (∃ token e, bearerToken req.authorization = some token ∧ verify token = .error e)) →
      ∃ res, res.status = 401 ∧ authMiddleware verify req = .sent res ∧
        guarded verify handler req db = (res, db) ∧
        ∀ other : Request → Pool → Response × Pool,
          guarded verify other req db = guarded verify handler req db) ∧
    (∀ req1, authMiddleware verify req = .next req1 →
      ∃ token payload, bearerToken req.authorization = some token ∧ token ≠ "" ∧
        verify token = .ok payload ∧
        req1.user.bind (fun u => u.get "id") = payload.get "userId" ∧
        req1.authorization = req.authorization ∧ req1.id = req.id ∧ req1.body = req.body ∧
        guarded verify handler req db = handler req1 db) := by
  constructor
  · intro h
    have hsent : ∃ res, res.status = 401 ∧ authMiddleware verify req = .sent res := by
      rcases h with h | ⟨hd, hh, h | h⟩ | ⟨token, e, ht, hv⟩
      · refine ⟨⟨401, .message "No token, authorization denied"⟩, rfl, ?_⟩
        simp [authMiddleware, bearerToken, h]
      · refine ⟨⟨401, .message "No token, authorization denied"⟩, rfl, ?_⟩
        have : bearerToken req.authorization = none := by
          simp only [bearerToken, hh, h, Option.map_none']
        simp [authMiddleware, this]
      · refine ⟨⟨401, .message "No token, authorization denied"⟩, rfl, ?_⟩
        have : bearerToken req.authorization = some "" := by
          simp only [bearerToken, hh, h, Option.map_some']
        simp [authMiddleware, this]
      · by_cases hempty : token = ""
        · refine ⟨⟨401, .message "No token, authorization denied"⟩, rfl, ?_⟩
          simp [authMiddleware, ht, hempty]
        · refine ⟨⟨401, .message "Token is not valid"⟩, rfl, ?_⟩
          simp [authMiddleware, ht, hempty, hv]
    obtain ⟨res, hs, hres⟩ := hsent
    refine ⟨res, hs, hres, by simp [guarded, hres], ?_⟩
    intro other
    simp [guarded, hres]
  · intro req1 hnext
    unfold authMiddleware at hnext
    cases ht : bearerToken req.authorization with
    | none => simp [ht] at hnext
    | some token =>
      simp only [ht] at hnext
      by_cases hempty : token = ""
      · simp [hempty] at hnext
      · simp only [hempty, if_false] at hnext
        cases hv : verify token with
        | error e => simp [hv] at hnext
        | ok payload =>
          simp only [hv, Passed.next.injEq] at hnext
          refine ⟨token, payload, rfl, hempty, hv, ?_, ?_, ?_, ?_, ?_⟩
          · subst hnext
            cases hu : payload.get "userId" <;> simp [JsObject.get, List.lookup]
          · subst hnext; rfl
          · subst hnext; rfl
          · subst hnext; rfl
          · subst hnext
            simp [guarded, authMiddleware, ht, hempty, hv]

/-! # Where the code leaves the specification -/

theorem updateTags_modifiedAt (db : Pool) (tags : List String) (v : JsVal) :
    (db.updateTags tags v).notes.map Note.modifiedAt = db.notes.map Note.modifiedAt := by
  simp only [Pool.updateTags, List.map_map]
  apply List.map_congr_left
  intro m _
  by_cases h : whereId v m = true <;> simp [h]

theorem updateAttachments_modifiedAt (db : Pool) (attachments : List String) (v : JsVal) :
    (db.updateAttachments attachments v).notes.map Note.modifiedAt
      = db.notes.map Note.modifiedAt := by
  simp only [Pool.updateAttachments, List.map_map]
  apply List.map_congr_left
  intro m _
  by_cases h : whereId v m = true <;> simp [h]

/-- Whatever the body and the table, create-tag and delete-tag leave every `modifiedAt`
as it was. -/
theorem tag_routes_modifiedAt (body : JsObject) (db : Pool) :
    (createTag body db).2.notes.map Note.modifiedAt = db.notes.map Note.modifiedAt ∧
    (deleteTag body db).2.notes.map Note.modifiedAt = db.notes.map Note.modifiedAt := by
  constructor
  · unfold createTag
    simp only []
    split
    · rfl
    · split
      · simp only [Pool.selectTags]
        split
        · rfl
        · exact updateTags_modifiedAt _ _ _
      · rfl
  · unfold deleteTag
    simp only []
    split
    · rfl
    · split
      · simp only [Pool.selectTags]
        split
        · rfl
        · exact updateTags_modifiedAt _ _ _
      · rfl

/-- Whatever the body and the table, create-attachment and delete-attachment leave every
`modifiedAt` as it was. -/
theorem attachment_routes_modifiedAt (body : JsObject) (db : Pool) :
    (createAttachment body db).2.notes.map Note.modifiedAt = db.notes.map Note.modifiedAt ∧
    (deleteAttachment body db).2.notes.map Note.modifiedAt = db.notes.map Note.modifiedAt := by
  constructor
  · unfold createAttachment
    simp only []
    split
    · rfl
    · split
      · simp only [Pool.selectAttachments]
        split
        · rfl
        · exact updateAttachments_modifiedAt _ _ _
      · rfl
  · unfold deleteAttachment
    simp only []
    split
    · rfl
    · split
      · simp only [Pool.selectAttachments]
        split
        · rfl
        · exact updateAttachments_modifiedAt _ _ _
      · rfl


/-- Claim C4, the code at a failing input.  create-tag, delete-tag, create-attachment and
delete-attachment on the sample row succeed and rewrite their column, and the row keeps the
`modifiedAt` it had (10); the sibling `updateNoteField` does set `modifiedAt` to the time
of its write. -/
theorem collection_routes_keep_modifiedAt :
    (createTag [("noteId", .num 1), ("tag", .str "work")] samplePool).1
        = ⟨201, .message "Tag added successfully"⟩ ∧
    (createTag [("noteId", .num 1), ("tag", .str "work")] samplePool).2.notes
        = [{ sampleNote with tags := ["work"], modifiedAt := 10 }] ∧
    ((deleteTag [("noteId", .num 1), ("tag", .str "work")] samplePool).2.notes.map
        Note.modifiedAt) = [10] ∧
    (createAttachment [("noteId", .num 1), ("attachment", .str "a.png")] samplePool).2.notes
        = [{ sampleNote with attachments := ["a.png"], modifiedAt := 10 }] ∧
    ((deleteAttachment [("noteId", .num 1), ("attachment", .str "a.png")]
        samplePool).2.notes.map Note.modifiedAt) = [10] ∧
    (updateNoteField strictMode 1 .favorite (.bool true) 99 samplePool).2.notes
        = [{ sampleNote with favorite := true, modifiedAt := 99 }] := by
  decide

/-- Claim C7, the code at a failing input.  For the body holding `favorite: "yes"` the
chains declared on update-status report `favorite`, and the handler, whatever the server
does with the value, answers with a status other than 400 after it has issued the
`updateNoteField` statement; update-note, which reads the validation result, answers 400
on a malformed body and issues nothing. -/
theorem updateStatus_ignores_validation :
    validationResult updateStatusChains [("favorite", .str "yes")] = ["favorite"] ∧
    (∀ (E : Engine) (t1 t2 t3 : Nat),
      (updateStatus E 1 [("favorite", .str "yes")] t1 t2 t3 samplePool).1.status ≠ 400 ∧
      Stmt.updateField .favorite (.str "yes") 1
        ∈ (updateStatus E 1 [("favorite", .str "yes")] t1 t2 t3 samplePool).2.log) ∧
    (∀ (E : Engine) (t1 t2 : Nat),
      updateNote E 1 [("title", .num 5), ("content", .str "C")] t1 t2 samplePool
        = (⟨400, .errors ["title"]⟩, samplePool)) := by
  refine ⟨by decide, ?_, ?_⟩
  · intro E t1 t2 t3
    cases h : E.flagOf (.str "yes") <;>
      simp [updateStatus, updateIfDefined, updateNoteField, assign, Engine.flag, h,
        JsObject.get, List.lookup, Pool.issue, Pool.selectNote, Except.map, samplePool]
  · intro E t1 t2
    simp [updateNote, validationResult, Chain.run, JsObject.get, List.lookup, isString]

/-- Claim C8, the code at a failing input.  With a provider record that has its own `uid`
and the generated local id 7, the `user` object of the answer is the provider record:
`uid` is the provider id, and no property holds 7. -/
theorem register_loses_local_id :
    register (.ok [("uid", .str "fb-1"), ("email", .str "a@x.com")]) (.ok 7)
      = ⟨200, .registered "User registered successfully"
          [("uid", .str "fb-1"), ("email", .str "a@x.com")]⟩ ∧
    (∀ kv ∈ spread [("uid", .num 7)] [("uid", .str "fb-1"), ("email", .str "a@x.com")],
      kv.2 ≠ .num 7) := by
  decide

/-- Claim C9, the code at a failing input.  After create-tag with the tag work on the
sample row of user 1, all-tags for user 1 answers the one-element list holding the JSON
text of the whole array, `["work"]` with its brackets and quotes, and the tag work itself
is not an element. -/
theorem allTags_yields_array_text :
    (allTags 1 (createTag [("noteId", .num 1), ("tag", .str "work")] samplePool).2).1
      = ⟨200, .tagList [some "[\x22work\x22]"]⟩ ∧
    some "work" ∉ [some "[\x22work\x22]"] ∧
    (allTags 1 samplePool).1 = ⟨200, .tagList [none]⟩ := by
  decide

/-! # Instances on the sample data -/

/-- The sample row, tagged twice with work through create-tag. -/
theorem createTag_createAttachment_append_witness :
    samplePool.PrimaryKey ∧ sampleNote ∈ samplePool.notes ∧ isInt (.num 1) = true ∧
    sqlInt (.num 1) = some sampleNote.id ∧
    (createTag [("noteId", .num 1), ("tag", .str "work")]
        (createTag [("noteId", .num 1), ("tag", .str "work")] samplePool).2).2.find
          sampleNote.id
      = some { sampleNote with tags := sampleNote.tags ++ ["work", "work"] } :=
  ⟨by decide, by decide, by decide, by decide,
    (createTag_createAttachment_append samplePool sampleNote (.num 1) "work"
      (by decide) (by decide) (by decide) (by decide)).1.2.2.2.2⟩

/-- The doubly tagged row loses both copies of its tag through delete-tag. -/
theorem deleteTag_deleteAttachment_filter_witness :
    taggedPool.PrimaryKey ∧ taggedNote ∈ taggedPool.notes ∧ isInt (.str "2") = true ∧
    sqlInt (.str "2") = some taggedNote.id ∧
    (deleteTag [("noteId", .str "2"), ("tag", .str "a")] taggedPool).2.notes
      = taggedPool.notes.map (fun m => if m.id = taggedNote.id
          then { m with tags := taggedNote.tags.filter (fun x => x ≠ "a") } else m) :=
  ⟨by decide, by decide, by decide, by decide,
    (deleteTag_deleteAttachment_filter taggedPool taggedNote (.str "2") "a"
      (by decide) (by decide) (by decide) (by decide)).1.2.1⟩

/-- No row of the sample table has id 2. -/
theorem collection_routes_absent_note_witness :
    isInt (.num 2) = true ∧ (∀ m ∈ samplePool.notes, sqlInt (.num 2) ≠ some m.id) ∧
    createTag [("noteId", .num 2), ("tag", .str "work")] samplePool
      = (⟨500, .error (typeErrorMessage "tags")⟩,
          ⟨samplePool.notes, samplePool.log ++ [.selectTags (.num 2)]⟩) :=
  ⟨by decide, by decide,
    (collection_routes_absent_note samplePool (.num 2) "work" (by decide) (by decide)).1.1⟩

/-- Deleting the id 2, which the sample table does not hold, changes no row. -/
theorem deleteNote_idempotent_witness :
    (∀ n ∈ samplePool.notes, n.id ≠ 2) ∧ (deleteNote 2 samplePool).2.notes = samplePool.notes :=
  ⟨by decide, (deleteNote_idempotent samplePool 2).2.2.2.2.2.1 (by decide)⟩

/-- A body that sets `favorite` and clears `inTrash` on the doubly tagged row. -/
theorem updateStatus_flags_independent_witness :
    JsObject.get [("favorite", .bool true), ("inTrash", .bool false)] "favorite"
      = (some true).map JsVal.bool ∧
    JsObject.get [("favorite", .bool true), ("inTrash", .bool false)] "pinned"
      = (none : Option Bool).map JsVal.bool ∧
    JsObject.get [("favorite", .bool true), ("inTrash", .bool false)] "inTrash"
      = (some false).map JsVal.bool ∧
    (updateStatus strictMode 2 [("favorite", .bool true), ("inTrash", .bool false)] 20 21 22
        taggedPool).2.notes
      = [sampleNote, { taggedNote with favorite := true, inTrash := false, modifiedAt := 22 }] ∧
    (updateStatus strictMode 2 [("favorite", .bool true), ("inTrash", .bool false)] 20 21 22
        taggedPool).1
      = ⟨200, .note ((updateStatus strictMode 2
          [("favorite", .bool true), ("inTrash", .bool false)] 20 21 22 taggedPool).2.find 2)⟩ :=
  ⟨by decide, by decide, by decide, by decide,
    ((updateStatus_flags_independent strictMode 2
      [("favorite", .bool true), ("inTrash", .bool false)] 20 21 22 taggedPool).2.1
      (some true) none (some false) (by decide) (by decide) (by decide)).2⟩

/-- A request without Authorization header on the create-tag route is answered 401 and
the table is untouched; with the token the verifier knows, the handler runs. -/
theorem authMiddleware_fails_closed_witness :
    (sampleRequest none).authorization = none ∧
    (∃ res, res.status = 401 ∧ authMiddleware sampleVerify (sampleRequest none) = .sent res ∧
      postCreateTag sampleVerify (sampleRequest none) samplePool = (res, samplePool) ∧
      ∀ other : Request → Pool → Response × Pool,
        guarded sampleVerify other (sampleRequest none) samplePool
          = postCreateTag sampleVerify (sampleRequest none) samplePool) ∧
    authMiddleware sampleVerify (sampleRequest (some "Bearer good"))
      = .next { sampleRequest (some "Bearer good") with user := some [("id", .num 1)] } ∧
    (postCreateTag sampleVerify (sampleRequest (some "Bearer good")) samplePool).2.notes
      = [{ sampleNote with tags := ["work"] }] :=
  ⟨rfl, (authMiddleware_fails_closed sampleVerify (fun req db => createTag req.body db)
    (sampleRequest none) samplePool).1 (Or.inl rfl), by decide, by decide⟩

end Notable
